import Mathlib

/-!
Verification of the session-and-polling lifecycle of a generative-audio
client (`src/lib/SunoApi.ts`), as a shallow embedding in Lean.

Strings are Lean `String`s; the lyrics-normalization core works on the
underlying `List Char` (a JS string is a sequence of code units; the
operations used — split on a newline character, trim, join — act
elementwise).  Network responses are passed in as explicit oracle
parameters, wall-clock time as a map from poll-iteration index to elapsed
milliseconds, and the `while` polling loop is embedded with a fuel
parameter (`none` = fuel exhausted, never reached with enough fuel).
-/

namespace SunoApi

/-- JS whitespace characters recognised by `String.prototype.trim`
(the ones expressible here: ASCII whitespace, NBSP, BOM). -/
def isJsWhitespace (c : Char) : Bool :=
  c = ' ' || c = '\t' || c = '\n' || c = '\r' ||
  c = '\x0b' || c = '\x0c' || c = '\u00A0' || c = '\uFEFF'

/-- `String.prototype.trim` on the character list. -/
def jsTrim (s : List Char) : List Char :=
  ((s.dropWhile isJsWhitespace).reverse.dropWhile isJsWhitespace).reverse

/-- Core of `parseLyrics` (SunoApi.ts lines 222-234) on character lists:
split the prompt on newline, drop lines that are blank after trimming,
and rejoin the remaining lines with single newlines. -/
def parseLyricsCore (s : List Char) : List Char :=
  let lines := (s.splitOn '\n').filter (fun line => !(jsTrim line).isEmpty)
  List.intercalate ['\n'] lines

/-- `parseLyrics` (SunoApi.ts lines 222-234). -/
def parseLyrics (s : String) : String :=
  String.mk (parseLyricsCore s.data)

/-- Metadata object of a raw clip as returned by the service. Fields that
may be absent in the JSON are `Option`s. -/
structure ClipMetadata where
  prompt : Option String
  gpt_description_prompt : Option String
  type : Option String
  tags : Option String
  duration_formatted : Option String
deriving DecidableEq

/-- A raw clip record as returned by the submission and feed endpoints. -/
structure Clip where
  id : String
  title : Option String
  image_url : Option String
  audio_url : Option String
  video_url : Option String
  created_at : String
  model_name : String
  status : String
  metadata : ClipMetadata
deriving DecidableEq

/-- The normalized `AudioInfo` record (SunoApi.ts lines 11-26). -/
structure AudioInfo where
  id : String
  title : Option String
  image_url : Option String
  lyric : Option String
  audio_url : Option String
  video_url : Option String
  created_at : String
  model_name : String
  gpt_description_prompt : Option String
  prompt : Option String
  status : String
  type : Option String
  tags : Option String
  duration : Option String
deriving DecidableEq

/-- The JSON payload built by `generateSongs` (SunoApi.ts lines 145-156).
`Option` fields model JSON keys that may be absent. -/
structure GeneratePayload where
  make_instrumental : Bool
  mv : String
  prompt : String
  tags : Option String
  title : Option String
  gpt_description_prompt : Option String
deriving DecidableEq

/-- Payload construction in `generateSongs` (SunoApi.ts lines 145-156):
the base payload has `make_instrumental` coerced with a loose equality
against `true` (an absent argument compares unequal), the fixed model tag,
and an empty `prompt`; custom mode then sets `tags`, `title` and `prompt`,
non-custom mode sets only `gpt_description_prompt`. -/
def mkPayload (prompt : String) (isCustom : Bool) (tags title : Option String)
    (make_instrumental : Option Bool) : GeneratePayload :=
  let base : GeneratePayload :=
    { make_instrumental := make_instrumental == some true
      mv := "chirp-v3-0"
      prompt := ""
      tags := none
      title := none
      gpt_description_prompt := none }
  if isCustom then
    { base with tags := tags, title := title, prompt := prompt }
  else
    { base with gpt_description_prompt := some prompt }

/-- The clip-to-AudioInfo mapping of the non-waiting branch of
`generateSongs` (SunoApi.ts lines 198-213): `lyric` is the raw
`metadata.prompt`, no normalization. -/
def mapSubmitClip (audio : Clip) : AudioInfo :=
  { id := audio.id
    title := audio.title
    image_url := audio.image_url
    lyric := audio.metadata.prompt
    audio_url := audio.audio_url
    video_url := audio.video_url
    created_at := audio.created_at
    model_name := audio.model_name
    gpt_description_prompt := audio.metadata.gpt_description_prompt
    prompt := audio.metadata.prompt
    status := audio.status
    type := audio.metadata.type
    tags := audio.metadata.tags
    duration := audio.metadata.duration_formatted }

/-- JS truthiness of an optional string: `undefined` and `""` are falsy. -/
def optStrTruthy : Option String → Bool
  | some s => s != ""
  | none => false

/-- The clip-to-AudioInfo mapping of `get` (SunoApi.ts lines 253-268):
`lyric` is the normalized `metadata.prompt` when that field is truthy,
else the empty string. -/
def mapGetClip (audio : Clip) : AudioInfo :=
  { id := audio.id
    title := audio.title
    image_url := audio.image_url
    lyric := some (if optStrTruthy audio.metadata.prompt then
      parseLyrics (audio.metadata.prompt.getD "") else "")
    audio_url := audio.audio_url
    video_url := audio.video_url
    created_at := audio.created_at
    model_name := audio.model_name
    gpt_description_prompt := audio.metadata.gpt_description_prompt
    prompt := audio.metadata.prompt
    status := audio.status
    type := audio.metadata.type
    tags := audio.metadata.tags
    duration := audio.metadata.duration_formatted }

/-- The base URL of the feed endpoint. -/
def feedUrl : String := "https://studio-api.suno.ai/api/feed/"

/-- URL construction of `get` (SunoApi.ts lines 242-245): an omitted id
list leaves the bare feed URL, a present one (even an empty array, which
is truthy in JS) appends the comma-joined ids as the `ids` query. -/
def getUrl (songIds : Option (List String)) : String :=
  match songIds with
  | none => feedUrl
  | some ids => feedUrl ++ "?ids=" ++ String.intercalate "," ids

/-- Response mapping of `get` (SunoApi.ts lines 252-268): map every raw
record, in response order. -/
def getMapped (respData : List Clip) : List AudioInfo :=
  respData.map mapGetClip

/-- The all-completed check of the polling loop (SunoApi.ts lines
185-187). -/
def allCompleted (response : List AudioInfo) : Bool :=
  response.all (fun audio => audio.status == "streaming" || audio.status == "complete")

/-- Oracle for one run of the polling loop: `fetchResults k` is the raw
feed response of the k-th poll, `elapsed k` the wall-clock milliseconds
since `startTime` at the k-th evaluation of the `while` condition
(SunoApi.ts line 183). -/
structure PollEnv where
  fetchResults : Nat → List Clip
  elapsed : Nat → Nat

/-- The `while` polling loop of `generateSongs` (SunoApi.ts lines
183-195), embedded with fuel: while fewer than 100000 ms have elapsed,
fetch the submitted ids, return the fresh fetch if every job is
streaming/complete, else remember it as `lastResponse` and iterate; once
the deadline has passed, return `lastResponse`.  `none` means the fuel
ran out before the loop exited (never reached with enough fuel). -/
def pollLoopFuel (env : PollEnv) (ids : List String) :
    Nat → Nat → List AudioInfo → Option (List AudioInfo)
  | 0, _, _ => none
  | fuel + 1, k, lastResponse =>
    if env.elapsed k < 100000 then
      let response := (env.fetchResults k).map mapGetClip
      if allCompleted response then
        some response
      else
        pollLoopFuel env ids fuel (k + 1) response
    else
      some lastResponse

/-- Errors of the spec's taxonomy raised by the modelled operations. -/
inductive ApiError where
  | authenticationError
  | illegalStateError
deriving DecidableEq

/-- Observable calls issued by the client. -/
inductive ApiEvent where
  | identityCall
  | renew (isWait : Bool)
  | submitCall (payload : GeneratePayload)
  | fetchCall (ids : Option (List String))
deriving DecidableEq

/-- Whether an event is a generation-submission call. -/
def ApiEvent.isSubmitCall : ApiEvent → Bool
  | .submitCall _ => true
  | _ => false

/-- The network calls issued by the polling loop, mirroring
`pollLoopFuel` (each iteration fetches the submitted ids and, when not
yet complete, renews the token with the blocking delay). -/
def pollEvents (env : PollEnv) (ids : List String) : Nat → Nat → List ApiEvent
  | 0, _ => []
  | fuel + 1, k =>
    if env.elapsed k < 100000 then
      if allCompleted ((env.fetchResults k).map mapGetClip) then
        [ApiEvent.fetchCall (some ids)]
      else
        ApiEvent.fetchCall (some ids) :: ApiEvent.renew true ::
          pollEvents env ids fuel (k + 1)
    else
      []

/-- The submission response (SunoApi.ts lines 166-177): HTTP status and
the `clips` list. -/
structure SubmitResponse where
  status : Nat
  clips : List Clip
deriving DecidableEq

/-- Result of `generateSongs` (SunoApi.ts lines 137-215): a non-200
status throws (modelled `none`); with `wait_audio` the polling loop runs
over the ids extracted from `clips`; without it the `clips` of the
submission response are mapped directly. -/
def generateSongs (prompt : String) (isCustom : Bool) (tags title : Option String)
    (make_instrumental : Option Bool) (wait_audio : Bool)
    (resp : SubmitResponse) (env : PollEnv) (fuel : Nat) : Option (List AudioInfo) :=
  let _payload := mkPayload prompt isCustom tags title make_instrumental
  if resp.status ≠ 200 then
    none
  else
    let songIds := resp.clips.map (fun audio => audio.id)
    if wait_audio then
      pollLoopFuel env songIds fuel 0 []
    else
      some (resp.clips.map mapSubmitClip)

/-- The network calls issued by `generateSongs` after the submission
call, mirroring `generateSongs`: the submission itself, then either the
polling loop's calls or the single blocking-delay token renewal of the
non-waiting branch (SunoApi.ts line 197). -/
def generateSongsTrace (prompt : String) (isCustom : Bool) (tags title : Option String)
    (make_instrumental : Option Bool) (wait_audio : Bool)
    (resp : SubmitResponse) (env : PollEnv) (fuel : Nat) : List ApiEvent :=
  let payload := mkPayload prompt isCustom tags title make_instrumental
  if resp.status ≠ 200 then
    [ApiEvent.submitCall payload]
  else
    let songIds := resp.clips.map (fun audio => audio.id)
    if wait_audio then
      ApiEvent.submitCall payload :: pollEvents env songIds fuel 0
    else
      [ApiEvent.submitCall payload, ApiEvent.renew true]

/-- Client session state: the stored session id and the tokens captured
by the request interceptors registered so far, in registration order. -/
structure ClientState where
  sid : Option String
  interceptorTokens : List String
deriving DecidableEq

/-- Outcome of one session-manager operation: the new state, the calls
issued, and the error raised (if any; the state is unchanged then). -/
structure StepResult where
  state : ClientState
  events : List ApiEvent
  error : Option ApiError
deriving DecidableEq

/-- `keepAlive` (SunoApi.ts lines 68-86): without a session id it throws
before issuing the renewal call; otherwise it issues the renewal call
and registers one more request interceptor closing over the fresh
token. -/
def keepAlive (st : ClientState) (isWait : Bool) (renewJwt : String) : StepResult :=
  match st.sid with
  | none =>
    { state := st, events := [], error := some ApiError.illegalStateError }
  | some _ =>
    { state := { st with interceptorTokens := st.interceptorTokens ++ [renewJwt] }
      events := [ApiEvent.renew isWait]
      error := none }

/-- The `Authorization` header an outgoing request ends up with.  axios
runs request interceptors in reverse registration order (each registered
interceptor is unshifted onto the dispatch chain), and each interceptor
registered by `keepAlive` overwrites the header with its captured token,
so the interceptor registered first runs last and wins. -/
def authHeaderOnSend (st : ClientState) : Option String :=
  st.interceptorTokens.reverse.foldl (fun _auth tok => some tok) none

/-- `getAuthToken` (SunoApi.ts lines 55-66): query the identity endpoint;
a falsy `last_active_session_id` (absent or empty) throws and stores
nothing, otherwise the session id is stored. -/
def getAuthToken (st : ClientState) (identityResp : Option String) : StepResult :=
  match identityResp with
  | none =>
    { state := st, events := [ApiEvent.identityCall]
      error := some ApiError.authenticationError }
  | some sid =>
    if sid = "" then
      { state := st, events := [ApiEvent.identityCall]
        error := some ApiError.authenticationError }
    else
      { state := { st with sid := some sid }
        events := [ApiEvent.identityCall]
        error := none }

/-- `init` (SunoApi.ts lines 48-52): obtain the session id, then renew
the token once (no blocking delay); a failure of the first step aborts
before the renewal. -/
def init (st : ClientState) (identityResp : Option String) (renewJwt : String) :
    StepResult :=
  let r1 := getAuthToken st identityResp
  match r1.error with
  | some e => { state := r1.state, events := r1.events, error := some e }
  | none =>
    let r2 := keepAlive r1.state false renewJwt
    { state := r2.state, events := r1.events ++ r2.events, error := r2.error }

/-- Sample metadata with no raw prompt. -/
def plainMeta : ClipMetadata :=
  { prompt := none, gpt_description_prompt := none, type := none, tags := none
    duration_formatted := none }

/-- Sample clip with the given id and status and no raw prompt. -/
def plainClip (i st : String) : Clip :=
  { id := i, title := none, image_url := none, audio_url := none, video_url := none
    created_at := "t0", model_name := "chirp-v3-0", status := st, metadata := plainMeta }

/-- C4: modes of the submission payload. -/
theorem payload_fields_by_mode (prompt tags title : String) (otg otl : Option String)
    (mi : Option Bool) :
    mkPayload prompt true (some tags) (some title) mi =
      { make_instrumental := mi == some true, mv := "chirp-v3-0", prompt := prompt
        tags := some tags, title := some title, gpt_description_prompt := none } ∧
    mkPayload prompt false otg otl mi =
      { make_instrumental := mi == some true, mv := "chirp-v3-0", prompt := ""
        tags := none, title := none, gpt_description_prompt := some prompt } ∧
    mkPayload "a calm piano piece" false none none (some false) =
      { make_instrumental := false, mv := "chirp-v3-0", prompt := ""
        tags := none, title := none
        gpt_description_prompt := some "a calm piano piece" } :=
  ⟨rfl, rfl, by decide⟩

/-- C8: `keepAlive` without a stored session id fails with the
illegal-state error, issues no renewal call, and leaves the state
unchanged. -/
theorem keepAlive_requires_session (toks : List String) (isWait : Bool) (jwt : String) :
    keepAlive { sid := none, interceptorTokens := toks } isWait jwt =
      { state := { sid := none, interceptorTokens := toks }, events := []
        error := some ApiError.illegalStateError } :=
  rfl

/-- C7: `init` on an identity response with no usable session identifier
(absent or empty) fails with the authentication error, stores nothing,
and issues no generation call. -/
theorem init_fails_without_session_id (st : ClientState) (renewJwt : String) :
    ((init st none renewJwt).error = some ApiError.authenticationError ∧
      (init st none renewJwt).state = st ∧
      (init st none renewJwt).events.filter ApiEvent.isSubmitCall = []) ∧
    ((init st (some "") renewJwt).error = some ApiError.authenticationError ∧
      (init st (some "") renewJwt).state = st ∧
      (init st (some "") renewJwt).events.filter ApiEvent.isSubmitCall = []) :=
  ⟨⟨rfl, rfl, rfl⟩, ⟨rfl, rfl, rfl⟩⟩

/-- C3 (bug evidence): after two successful token refreshes the header
attached to an outgoing request is the first token, not the most recent
one — each `keepAlive` stacks a fresh interceptor and axios runs request
interceptors in reverse registration order. -/
theorem keepAlive_stale_token_after_two_refreshes :
    authHeaderOnSend (keepAlive (keepAlive
        { sid := some "session", interceptorTokens := [] } false "tokenA").state
        false "tokenB").state = some "tokenA" ∧
    ("tokenA" : String) ≠ "tokenB" :=
  ⟨rfl, by decide⟩

/-- C5: without `wait_audio`, a successful submission issues exactly one
submission call followed by one blocking-delay token renewal and no
fetches, and the result is the submission response's clips mapped 1:1
(same length as the extracted job-id list). -/
theorem waitFalse_single_submission (prompt : String) (isCustom : Bool)
    (tags title : Option String) (mi : Option Bool)
    (resp : SubmitResponse) (env : PollEnv) (fuel : Nat) (hst : resp.status = 200) :
    generateSongs prompt isCustom tags title mi false resp env fuel =
      some (resp.clips.map mapSubmitClip) ∧
    generateSongsTrace prompt isCustom tags title mi false resp env fuel =
      [ApiEvent.submitCall (mkPayload prompt isCustom tags title mi),
        ApiEvent.renew true] ∧
    (resp.clips.map mapSubmitClip).length =
      (resp.clips.map (fun audio => audio.id)).length := by
  refine ⟨?_, ?_, by simp⟩
  · simp [generateSongs, hst]
  · simp [generateSongsTrace, hst]

/-- Sample submission response with two clips. -/
def sampleResp : SubmitResponse :=
  { status := 200, clips := [plainClip "a1" "submitted", plainClip "a2" "submitted"] }

/-- Sample polling oracle (never consulted by the non-waiting branch). -/
def sampleEnv : PollEnv := { fetchResults := fun _ => [], elapsed := fun _ => 0 }

/-- Witness for C5 at a concrete submission response. -/
theorem waitFalse_single_submission_witness :
    generateSongs "p" false none none none false sampleResp sampleEnv 0 =
      some (sampleResp.clips.map mapSubmitClip) ∧
    generateSongsTrace "p" false none none none false sampleResp sampleEnv 0 =
      [ApiEvent.submitCall (mkPayload "p" false none none none),
        ApiEvent.renew true] ∧
    (sampleResp.clips.map mapSubmitClip).length =
      (sampleResp.clips.map (fun audio => audio.id)).length :=
  waitFalse_single_submission "p" false none none none sampleResp sampleEnv 0 rfl

/-- C1: when a poll of the submitted ids reports every job streaming or
complete before the deadline, the loop returns exactly that freshly
fetched (and mapped) list on that iteration; and with `wait_audio` the
operation returns the polling loop's value, not the submission
snapshot. -/
theorem pollLoop_all_complete_returns_fetch (env : PollEnv) (ids : List String)
    (fuel k : Nat) (last : List AudioInfo)
    (hdl : env.elapsed k < 100000)
    (hall : allCompleted ((env.fetchResults k).map mapGetClip) = true) :
    pollLoopFuel env ids (fuel + 1) k last =
      some ((env.fetchResults k).map mapGetClip) ∧
    (∀ (prompt : String) (isCustom : Bool) (tags title : Option String)
        (mi : Option Bool) (resp : SubmitResponse) (fuel2 : Nat),
      resp.status = 200 →
      generateSongs prompt isCustom tags title mi true resp env fuel2 =
        pollLoopFuel env (resp.clips.map (fun audio => audio.id)) fuel2 0 []) := by
  constructor
  · simp only [pollLoopFuel]
    rw [if_pos hdl, if_pos hall]
  · intro prompt isCustom tags title mi resp fuel2 hst
    simp [generateSongs, hst]

/-- Sample polling oracle whose fetches report one complete job. -/
def completeEnv : PollEnv :=
  { fetchResults := fun _ => [plainClip "a1" "complete"], elapsed := fun _ => 5000 }

/-- Witness for C1 at a concrete all-complete fetch. -/
theorem pollLoop_all_complete_witness :
    pollLoopFuel completeEnv ["a1"] 1 0 [] =
      some ((completeEnv.fetchResults 0).map mapGetClip) ∧
    generateSongs "p" false none none none true sampleResp completeEnv 7 =
      pollLoopFuel completeEnv (sampleResp.clips.map (fun audio => audio.id)) 7 0 [] :=
  ⟨(pollLoop_all_complete_returns_fetch completeEnv ["a1"] 0 0 [] (by decide)
      (by decide)).1,
   (pollLoop_all_complete_returns_fetch completeEnv ["a1"] 0 0 [] (by decide)
      (by decide)).2 "p" false none none none sampleResp 7 rfl⟩

/-- C10: a poll that returns an empty job list passes the vacuously true
all-completed check, so the loop terminates on that iteration and
returns the empty list. -/
theorem pollLoop_empty_fetch_terminates (env : PollEnv) (ids : List String)
    (fuel k : Nat) (last : List AudioInfo)
    (hfetch : env.fetchResults k = [])
    (hdl : env.elapsed k < 100000) :
    allCompleted [] = true ∧
    pollLoopFuel env ids (fuel + 1) k last = some [] := by
  refine ⟨rfl, ?_⟩
  simp only [pollLoopFuel]
  rw [if_pos hdl, hfetch]
  simp [allCompleted]

/-- Sample polling oracle whose fetches return an empty list. -/
def emptyFeedEnv : PollEnv :=
  { fetchResults := fun _ => [], elapsed := fun _ => 6000 }

/-- Witness for C10 at a concrete empty fetch. -/
theorem pollLoop_empty_fetch_witness :
    allCompleted [] = true ∧
    pollLoopFuel emptyFeedEnv ["a1"] 4 0 [] = some [] :=
  pollLoop_empty_fetch_terminates emptyFeedEnv ["a1"] 3 0 [] rfl (by decide)

/-- Helper for C2: below the deadline, with no fetch ever all-complete
and consecutive condition checks at least 3000 ms apart (each iteration
sleeps 3-6 s), enough fuel drives the loop to the deadline exit, which
returns the fetch of the last iteration that ran. -/
theorem pollLoop_timeout_aux (env : PollEnv) (ids : List String)
    (hstep : ∀ k, env.elapsed k + 3000 ≤ env.elapsed (k + 1))
    (hnc : ∀ k, allCompleted ((env.fetchResults k).map mapGetClip) = false) :
    ∀ fuel k last, env.elapsed k < 100000 →
      100000 + 3000 ≤ env.elapsed k + 3000 * fuel →
      ∃ m, k ≤ m ∧ env.elapsed m < 100000 ∧ 100000 ≤ env.elapsed (m + 1) ∧
        pollLoopFuel env ids fuel k last =
          some ((env.fetchResults m).map mapGetClip) := by
  intro fuel
  induction fuel with
  | zero => intro k last hk hf; omega
  | succ fuel ih =>
    intro k last hk hf
    by_cases hnext : env.elapsed (k + 1) < 100000
    · obtain ⟨m, hm1, hm2, hm3, hm4⟩ :=
        ih (k + 1) ((env.fetchResults k).map mapGetClip) hnext
          (by have := hstep k; omega)
      refine ⟨m, by omega, hm2, hm3, ?_⟩
      simp only [pollLoopFuel]
      rw [if_pos hk, if_neg (by simp [hnc k])]
      exact hm4
    · rcases fuel with _ | fuel
      · omega
      · refine ⟨k, Nat.le_refl k, hk, by omega, ?_⟩
        simp only [pollLoopFuel]
        rw [if_pos hk, if_neg (by simp [hnc k]), if_neg hnext]

/-- C2: if the jobs never all reach streaming/complete, the polling loop
still terminates once the elapsed time passes the 100-second deadline,
returning the last fetched (incomplete) list rather than an error. -/
theorem pollLoop_times_out_with_last_fetch (env : PollEnv) (ids : List String)
    (fuel : Nat)
    (hstep : ∀ k, env.elapsed k + 3000 ≤ env.elapsed (k + 1))
    (hnc : ∀ k, allCompleted ((env.fetchResults k).map mapGetClip) = false)
    (h0 : env.elapsed 0 < 100000)
    (hfuel : 100000 + 3000 ≤ 3000 * fuel) :
    ∃ m, env.elapsed m < 100000 ∧ 100000 ≤ env.elapsed (m + 1) ∧
      pollLoopFuel env ids fuel 0 [] =
        some ((env.fetchResults m).map mapGetClip) := by
  obtain ⟨m, _, h2, h3, h4⟩ :=
    pollLoop_timeout_aux env ids hstep hnc fuel 0 [] h0 (by omega)
  exact ⟨m, h2, h3, h4⟩

/-- Sample polling oracle whose jobs stay queued forever, with checks
5000 + 3000k ms after loop entry. -/
def timeoutEnv : PollEnv :=
  { fetchResults := fun _ => [plainClip "a1" "queued"]
    elapsed := fun k => 5000 + 3000 * k }

/-- Witness for C2 at a concrete never-completing oracle. -/
theorem pollLoop_times_out_witness :
    ∃ m, timeoutEnv.elapsed m < 100000 ∧ 100000 ≤ timeoutEnv.elapsed (m + 1) ∧
      pollLoopFuel timeoutEnv ["a1"] 35 0 [] =
        some ((timeoutEnv.fetchResults m).map mapGetClip) :=
  pollLoop_times_out_with_last_fetch timeoutEnv ["a1"] 35
    (fun k => by simp only [timeoutEnv]; omega)
    (fun _ => rfl)
    (by decide) (by decide)

/-- The normalization of the empty prompt is empty. -/
theorem parseLyrics_empty : parseLyrics "" = "" := rfl

/-- C6: `get` with no ids targets the bare feed URL, with ids the
comma-joined `ids` query; the result is mapped one-to-one from the
service response in response order, and each record's `lyric` is the
normalized raw prompt when present, else the empty string. -/
theorem get_url_and_mapping (ids : List String) (respData : List Clip)
    (i : Nat) (c : Clip) (s : String) :
    getUrl none = feedUrl ∧
    getUrl (some ["a1", "a2"]) = "https://studio-api.suno.ai/api/feed/?ids=a1,a2" ∧
    getUrl (some ids) = feedUrl ++ "?ids=" ++ String.intercalate "," ids ∧
    (getMapped respData).length = respData.length ∧
    (getMapped respData)[i]? = (respData[i]?).map mapGetClip ∧
    (c.metadata.prompt = some s → (mapGetClip c).lyric = some (parseLyrics s)) ∧
    (c.metadata.prompt = none → (mapGetClip c).lyric = some "") := by
  refine ⟨rfl, rfl, rfl, by simp [getMapped], by simp [getMapped], ?_, ?_⟩
  · intro h
    rcases eq_or_ne s "" with hs | hs
    · subst hs
      simp [mapGetClip, h, optStrTruthy, parseLyrics_empty]
    · simp [mapGetClip, h, optStrTruthy, hs]
  · intro h
    simp [mapGetClip, h, optStrTruthy]

/-- Sample clip carrying a raw prompt. -/
def promptClip : Clip :=
  { id := "a1", title := none, image_url := none, audio_url := none, video_url := none
    created_at := "t0", model_name := "chirp-v3-0", status := "complete"
    metadata := { plainMeta with prompt := some "hi\n\nho" } }

/-- Witness for C6 at concrete inputs. -/
theorem get_url_and_mapping_witness :
    getUrl (some ["a1", "a2"]) = "https://studio-api.suno.ai/api/feed/?ids=a1,a2" ∧
    (getMapped [promptClip])[0]? = ([promptClip][0]?).map mapGetClip ∧
    (mapGetClip promptClip).lyric = some (parseLyrics "hi\n\nho") ∧
    (mapGetClip (plainClip "a2" "complete")).lyric = some "" :=
  ⟨(get_url_and_mapping [] [] 0 promptClip "x").2.1,
   (get_url_and_mapping [] [promptClip] 0 promptClip "x").2.2.2.2.1,
   (get_url_and_mapping [] [] 0 promptClip "hi\n\nho").2.2.2.2.2.1 rfl,
   (get_url_and_mapping [] [] 0 (plainClip "a2" "complete") "x").2.2.2.2.2.2 rfl⟩

/-- No element of a `splitOnP` block satisfies the splitting
predicate. -/
theorem splitOnP_sep_not_mem {α : Type} (p : α → Bool) (xs : List α) :
    ∀ l ∈ xs.splitOnP p, ∀ a ∈ l, p a = false := by
  induction xs with
  | nil =>
    intro l hl a ha
    rw [List.splitOnP_nil, List.mem_singleton] at hl
    subst hl
    simp at ha
  | cons hd tl ih =>
    intro l hl a ha
    rw [List.splitOnP_cons] at hl
    by_cases h : p hd
    · rw [if_pos h] at hl
      rcases List.mem_cons.mp hl with h1 | h1
      · subst h1; simp at ha
      · exact ih l h1 a ha
    · rw [if_neg h] at hl
      rcases hcase : tl.splitOnP p with _ | ⟨h0, rest⟩
      · exact absurd hcase (List.splitOnP_ne_nil p tl)
      · rw [hcase, List.modifyHead_cons] at hl
        rcases List.mem_cons.mp hl with h1 | h1
        · subst h1
          rcases List.mem_cons.mp ha with h2 | h2
          · subst h2; exact Bool.eq_false_iff.mpr h
          · exact ih h0 (by rw [hcase]; exact List.mem_cons_self h0 rest) a h2
        · exact ih l (by rw [hcase]; exact List.mem_cons_of_mem h0 h1) a ha

/-- The separator is not a member of any block of `splitOn`. -/
theorem splitOn_sep_not_mem {α : Type} [DecidableEq α] (x : α) (xs : List α) :
    ∀ l ∈ xs.splitOn x, x ∉ l := by
  intro l hl hmem
  have h := splitOnP_sep_not_mem (fun a => a == x) xs l (by simpa [List.splitOn] using hl) x hmem
  simp at h

/-- The lyrics-normalization core is idempotent: its output consists of
newline-free lines that are individually non-blank, and re-splitting the
rejoined output recovers exactly those lines. -/
theorem parseLyricsCore_idempotent (s : List Char) :
    parseLyricsCore (parseLyricsCore s) = parseLyricsCore s := by
  unfold parseLyricsCore
  rcases hL : (s.splitOn '\n').filter (fun line => !(jsTrim line).isEmpty) with _ | ⟨l0, ls⟩
  · rfl
  · rw [← hL]
    have hsep : ∀ l ∈ (s.splitOn '\n').filter (fun line => !(jsTrim line).isEmpty),
        '\n' ∉ l :=
      fun l hl => splitOn_sep_not_mem '\n' s l (List.mem_of_mem_filter hl)
    have hne : (s.splitOn '\n').filter (fun line => !(jsTrim line).isEmpty) ≠ [] := by
      rw [hL]; exact List.cons_ne_nil l0 ls
    rw [List.splitOn_intercalate _ '\n' hsep hne,
      List.filter_eq_self.mpr (fun l hl => (List.mem_filter.mp hl).2)]

/-- C9: `parseLyrics` is idempotent. -/
theorem parseLyrics_idempotent (x : String) :
    parseLyrics (parseLyrics x) = parseLyrics x :=
  congrArg String.mk (parseLyricsCore_idempotent x.data)

end SunoApi
